import Mathlib

/-!
Shallow embedding of the batch TTS generator in `src/app.py` (a Streamlit app
that converts CSV rows into synthesized speech, packages the results in a zip
archive, and reports per-row progress).  Byte sequences are modelled as
`List Nat` (each entry one byte), machine floats used only for fixed literal
values (the 1.5 second delay, progress ratios) are modelled as rationals, and
the external Gemini service is modelled as an oracle mapping each row index and
outgoing request to one of the three reply shapes the code distinguishes.
-/

namespace GeminiTTS

/-! ### Python string trimming

`str.strip()` with no argument removes leading and trailing whitespace; for the
ASCII strings the app compares against `''` the relevant characters are the six
ASCII whitespace characters. -/

def isPySpace (c : Char) : Bool :=
  c == ' ' || c == '\t' || c == '\n' || c == '\r' || c == '\x0b' || c == '\x0c'

def pyStrip (s : String) : String :=
  String.mk (((s.data.dropWhile isPySpace).reverse.dropWhile isPySpace).reverse)

/-- A pandas cell: `none` models a missing value (`pd.NA`/`NaN`), `some s` a
string value.  `blankOpt` is the test `pd.isna(x) or str(x).strip() == ''`
used throughout `main` (app.py lines 339, 345, 354, 373, 390). -/
def blankOpt (o : Option String) : Bool :=
  match o with
  | none => true
  | some s => pyStrip s == ""

/-! ### Voice catalog (app.py lines 91-127) -/

def VOICE_INFO : List (String × String) :=
  [("Zephyr", "女性・落ち着いた声"),
   ("Kore", "女性・明るい声"),
   ("Aoede", "女性・優しい声"),
   ("Callirhoe", "女性・上品な声"),
   ("Autonoe", "女性・元気な声"),
   ("Despina", "女性・柔らかい声"),
   ("Erinome", "女性・知的な声"),
   ("Laomedeia", "女性・穏やかな声"),
   ("Schedar", "女性・はきはきした声"),
   ("Pulcherrima", "女性・華やかな声"),
   ("Vindemiatrix", "女性・深みのある声"),
   ("Puck", "男性・若々しい声"),
   ("Charon", "男性・落ち着いた声"),
   ("Fenrir", "男性・力強い声"),
   ("Leda", "男性・優しい声"),
   ("Orus", "男性・渋い声"),
   ("Enceladus", "男性・重厚な声"),
   ("Iapetus", "男性・知的な声"),
   ("Umbriel", "男性・穏やかな声"),
   ("Algieba", "男性・明瞭な声"),
   ("Algenib", "男性・はっきりした声"),
   ("Rasalgethi", "男性・深い声"),
   ("Achernar", "男性・クリアな声"),
   ("Alnilam", "男性・温かい声"),
   ("Gacrux", "男性・しっかりした声"),
   ("Achird", "男性・親しみやすい声"),
   ("Zubenelgenubi", "男性・独特な声"),
   ("Sadachbia", "男性・さわやかな声"),
   ("Sadaltager", "男性・印象的な声"),
   ("Sulafar", "男性・個性的な声")]

def VOICE_OPTIONS : List String := VOICE_INFO.map Prod.fst

/-! ### Row resolution (inline logic of the generation loop in `main`) -/

/-- One CSV row after ingestion: the `text` column plus the three optional
columns (`voice`, `filename`, `instruction`); missing cells are `none`. -/
structure ScriptRow where
  text : Option String
  voice : Option String
  filename : Option String
  instruction : Option String
deriving DecidableEq

/-- Voice selection, app.py lines 371-374: the row override is replaced by the
default when it is missing, blank after stripping, or not in `VOICE_OPTIONS`. -/
def resolveVoice (o : Option String) (dflt : String) : String :=
  match o with
  | none => dflt
  | some v => if pyStrip v == "" || !(VOICE_OPTIONS.contains v) then dflt else v

/-- Instruction composition, app.py lines 358-369: start from the global
instruction when it is a non-empty string, then append the row instruction
(newline-separated) when that one is present and non-blank after stripping. -/
def combineInstruction (dflt : String) (o : Option String) : String :=
  let combined := if dflt != "" then dflt else ""
  match o with
  | none => combined
  | some ind =>
    if pyStrip ind != "" then
      if combined != "" then combined ++ "\n" ++ ind else ind
    else combined

/-- Zero padding in the style of Python `f-string` format `03d`: a minimum
width of 3 digits. -/
def pad3 (n : Nat) : String :=
  if n < 10 then "00" ++ toString n
  else if n < 100 then "0" ++ toString n
  else toString n

/-- Base filename, app.py lines 338-340 and 388-391: the row override when it
is present and non-blank after stripping, else `audio_{idx+1:03d}`. -/
def resolveBase (o : Option String) (idx : Nat) : String :=
  match o with
  | none => "audio_" ++ pad3 (idx + 1)
  | some s => if pyStrip s == "" then "audio_" ++ pad3 (idx + 1) else s

/-- Artifact filename, app.py line 392: the resolved base name with `.wav`. -/
def artifactFilename (row : ScriptRow) (idx : Nat) : String :=
  resolveBase row.filename idx ++ ".wav"

/-- Text preview stored with each artifact, app.py line 401: the first 50
characters, with an ellipsis when the text is longer than 50 characters. -/
def textPreview (s : String) : String :=
  if s.length > 50 then String.mk (s.data.take 50) ++ "..." else s

/-! ### Spec-side restatements (for the refinement claims)

These definitions follow the wording of the specification, to be compared with
the definitions above, which are translated from the code. -/

/-- Spec wording: the row override wins only if non-empty (after trimming) and
a member of the supported voice enumeration; otherwise the default is used. -/
def specResolveVoice (o : Option String) (dflt : String) : String :=
  match o with
  | none => dflt
  | some v => if pyStrip v != "" && VOICE_OPTIONS.contains v then v else dflt

/-- Spec wording: if both the global and the row instruction are present,
concatenate global first with a newline; if only one is present use it
verbatim; if neither, the instruction is empty.  The global instruction is
present when it is a non-empty string; the row instruction is present when the
cell is non-missing and non-blank after trimming. -/
def specInstruction (g : String) (o : Option String) : String :=
  let gPresent : Bool := g != ""
  let rPresent : Bool := match o with | none => false | some s => pyStrip s != ""
  if gPresent && rPresent then g ++ "\n" ++ o.getD ""
  else if gPresent then g
  else if rPresent then o.getD ""
  else ""

/-- Spec wording: the base filename is the row override if non-empty after
trimming, otherwise `audio_{index+1}` zero-padded to width 3. -/
def specBase (o : Option String) (idx : Nat) : String :=
  match o with
  | none => "audio_" ++ pad3 (idx + 1)
  | some s => if pyStrip s != "" then s else "audio_" ++ pad3 (idx + 1)

/-! ### The WAV container builder (`create_wave_file`, app.py lines 34-43)

`create_wave_file` drives Python's `wave` module: it opens an in-memory file
for writing, sets channel count, sample width and frame rate, and writes the
raw PCM bytes.  On a little-endian host the module emits the byte-exact RIFF
layout reproduced below: `RIFF`, the chunk size `36 + len(data)`, `WAVE`, a
16-byte `fmt ` chunk (PCM tag 1, channels, rate, byte rate, block align, bits
per sample), then the `data` chunk header and the PCM bytes themselves. -/

def u16le (n : Nat) : List Nat := [n % 256, n / 256 % 256]

def u32le (n : Nat) : List Nat :=
  [n % 256, n / 256 % 256, n / 65536 % 256, n / 16777216 % 256]

def create_wave_file (pcm_data : List Nat) (channels rate sample_width : Nat) :
    List Nat :=
  [82, 73, 70, 70] ++ u32le (36 + pcm_data.length) ++ [87, 65, 86, 69] ++
  [102, 109, 116, 32] ++ u32le 16 ++ u16le 1 ++ u16le channels ++ u32le rate ++
  u32le (channels * rate * sample_width) ++ u16le (channels * sample_width) ++
  u16le (sample_width * 8) ++ [100, 97, 116, 97] ++ u32le pcm_data.length ++
  pcm_data

/-- The builder `create_wave_file` as called from `main` (line 387, with the default
parameters `channels=1, rate=24000, sample_width=2`), including its one
fault mode: Python's `struct.pack('<L', 36 + len(data))` inside the `wave`
module raises `struct.error` when the chunk size exceeds the unsigned 32-bit
range, and `main` calls `create_wave_file` outside of any `try` block. -/
def create_wave_fileE (pcm_data : List Nat) : Except String (List Nat) :=
  if 36 + pcm_data.length > 4294967295 then
    Except.error "struct.error: argument out of range"
  else Except.ok (create_wave_file pcm_data 1 24000 2)

/-- The fully resolved outgoing request: the payload text sent as `contents`
plus the model, voice and temperature configuration. -/
structure TTSRequest where
  contents : String
  voice : String
  temperature : ℚ
  model : String
deriving DecidableEq

/-- What one call to the external service does, as classified by
`generate_tts`: a reply with inline audio bytes, an empty reply (no response
object or no candidate list), or a raised exception with its message. -/
inductive SvcOutcome where
  | success (samples : List Nat)
  | empty
  | failure (msg : String)
deriving DecidableEq

/-- Payload construction (lines 49-56): a non-empty instruction wraps the
text in the instruction template, otherwise the raw text is sent. -/
def buildContents (instruction text : String) : String :=
  if instruction != "" then
    "Instructions: " ++ instruction ++
      "\n\nPlease read the following lines according to the instructions above:\n\"" ++
      text ++ "\" "
  else text

/-- The user-visible effects of the batch loop: progress-bar updates, status
text, warnings (row skips), error boxes (`st.error` inside `generate_tts`),
and the rate-limiting sleep.  Console `print` calls are not modelled. -/
inductive Event where
  | progress (ratio : ℚ)
  | status (msg : String)
  | warn (msg : String)
  | error (msg : String)
  | sleep (seconds : ℚ)
deriving DecidableEq

/-- The invoker `generate_tts` (lines 46-88): builds the payload, calls the service once,
and returns the inline audio bytes; an empty reply yields `None` with only a
console log, and a raised exception yields `None` after an `st.error` box
whose message starts `エラー: ` (the appended traceback is not modelled).
The enclosing `try` means no exception escapes this function. -/
def generate_tts (svc : TTSRequest → SvcOutcome) (text : String)
    (voice : String) (instruction : String) (temperature : ℚ)
    (model : String) : Option (List Nat) × List Event :=
  match svc ⟨buildContents instruction text, voice, temperature, model⟩ with
  | SvcOutcome.success s => (some s, [])
  | SvcOutcome.empty => (none, [])
  | SvcOutcome.failure m => (none, [Event.error ("エラー: " ++ m)])

/-! ### The batch loop (`main`, app.py lines 323-425) -/

/-- An entry of `generated_files` (lines 399-405).  The `path` key — the same
filename inside an ephemeral temporary directory — is not modelled. -/
structure GeneratedArtifact where
  filename : String
  text : String
  voice : String
  data : List Nat
deriving DecidableEq

/-- Batch-global defaults chosen in the UI before the loop runs. -/
structure Config where
  defaultVoice : String
  defaultInstruction : String
  temperature : ℚ
  model : String

/-- The observable result of one loop iteration. -/
structure RowStep where
  events : List Event
  artifact : Option GeneratedArtifact
deriving DecidableEq

/-- One iteration of the generation loop (lines 333-408) on row `idx`:
progress and status updates; the empty-text skip (`continue`, which bypasses
both the synthesis call and the rate-limit sleep); instruction and voice
resolution; the synthesis call; WAV construction for a truthy (non-`None`,
non-empty) byte result — a `struct.error` raised there escapes the loop, as
`create_wave_file` is called outside any `try` — and the unconditional 1.5
second sleep after every synthesis attempt. -/
def processRow (cfg : Config) (svc : TTSRequest → SvcOutcome) (total idx : Nat)
    (row : ScriptRow) : Except String RowStep :=
  let fn := resolveBase row.filename idx
  let headerEvents : List Event :=
    [Event.progress ((idx + 1 : ℚ) / (total : ℚ)),
     Event.status ("生成中... (" ++ toString (idx + 1) ++ "/" ++ toString total
       ++ ") - " ++ fn)]
  if blankOpt row.text then
    Except.ok ⟨headerEvents ++
      [Event.warn ("行 " ++ toString (idx + 1) ++
        ": テキストが空のためスキップしました")], none⟩
  else
    let text := row.text.getD ""
    let instr := combineInstruction cfg.defaultInstruction row.instruction
    let v := resolveVoice row.voice cfg.defaultVoice
    match generate_tts svc text v instr cfg.temperature cfg.model with
    | (some pcm, ttsEvents) =>
      if pcm.isEmpty then
        Except.ok ⟨headerEvents ++ ttsEvents ++ [Event.sleep (3 / 2)], none⟩
      else
        match create_wave_fileE pcm with
        | Except.error e => Except.error e
        | Except.ok wav =>
          Except.ok ⟨headerEvents ++ ttsEvents ++ [Event.sleep (3 / 2)],
            some ⟨artifactFilename row idx, textPreview text, v, wav⟩⟩
    | (none, ttsEvents) =>
      Except.ok ⟨headerEvents ++ ttsEvents ++ [Event.sleep (3 / 2)], none⟩

/-- The `for idx, row in df.iterrows()` loop, sequential and in row order;
the service oracle `svc` may answer differently per row index. -/
def runRows (cfg : Config) (svc : Nat → TTSRequest → SvcOutcome) (total : Nat) :
    Nat → List ScriptRow → Except String (List Event × List GeneratedArtifact)
  | _, [] => Except.ok ([], [])
  | idx, row :: rest =>
    match processRow cfg (svc idx) total idx row with
    | Except.error e => Except.error e
    | Except.ok step =>
      match runRows cfg svc total (idx + 1) rest with
      | Except.error e => Except.error e
      | Except.ok (evs, arts) =>
        Except.ok (step.events ++ evs, step.artifact.toList ++ arts)

/-- Zip assembly (lines 417-425): no archive at all when no files were
generated (`st.session_state.zip_data` is left unset), otherwise one
`writestr` entry per artifact, in order, keyed by its filename.  The archive
is modelled as its ordered entry list. -/
def assembleArchive (files : List GeneratedArtifact) :
    Option (List (String × List Nat)) :=
  match files with
  | [] => none
  | _ => some (files.map fun f => (f.filename, f.data))

/-- Reading an archive entry by name, with `zipfile`'s duplicate-name
semantics: `ZipFile.read` resolves a name to the last entry bearing it. -/
def zipRead (entries : List (String × List Nat)) (nm : String) :
    Option (List Nat) :=
  ((entries.filter fun e => e.fst == nm).getLast?).map Prod.snd

/-- The stored outcome of a whole run: the emitted events, the
`generated_files` list, and the optional zip archive. -/
structure BatchRun where
  events : List Event
  artifacts : List GeneratedArtifact
  zipData : Option (List (String × List Nat))
deriving DecidableEq

/-- The whole generation run (lines 323-425): iterate the rows from index 0,
then report completion (`progress(1.0)`, the done status) and assemble the
archive.  An exception escaping the loop aborts the run with no stored
result. -/
def run_batch (cfg : Config) (svc : Nat → TTSRequest → SvcOutcome)
    (rows : List ScriptRow) : Except String BatchRun :=
  match runRows cfg svc rows.length 0 rows with
  | Except.error e => Except.error e
  | Except.ok (evs, arts) =>
    Except.ok ⟨evs ++ [Event.progress 1, Event.status "✅ 生成完了！"],
      arts, assembleArchive arts⟩

/-! ### Derived counts and row classification

`main` keeps no explicit counters; each skipped row is reported through a
warning and each failed row through the absence of an artifact (plus an
error box when an exception was raised).  The counts below are the derived
quantities the spec calls `skipped` and `failed`. -/

def isProgress : Event → Bool
  | Event.progress _ => true
  | _ => false

def isWarn : Event → Bool
  | Event.warn _ => true
  | _ => false

def countProgress (evs : List Event) : Nat := evs.countP isProgress

def countWarn (evs : List Event) : Nat := evs.countP isWarn

/-- The request `generate_tts` sends for a given row (used to classify rows
by the oracle's reply without re-running the loop). -/
def rowRequestOf (cfg : Config) (row : ScriptRow) : TTSRequest :=
  ⟨buildContents (combineInstruction cfg.defaultInstruction row.instruction)
      (row.text.getD ""),
    resolveVoice row.voice cfg.defaultVoice, cfg.temperature, cfg.model⟩

/-- Empty result or raised fault: the row is recorded as failed. -/
def isFailureOutcome : SvcOutcome → Bool
  | SvcOutcome.empty => true
  | SvcOutcome.failure _ => true
  | SvcOutcome.success _ => false

/-- Success with a truthy (non-empty) byte payload: an artifact is built. -/
def isAudioOutcome : SvcOutcome → Bool
  | SvcOutcome.success s => !s.isEmpty
  | _ => false

/-- Number of rows skipped for blank text (the spec's `skipped`). -/
def skippedCount : List ScriptRow → Nat
  | [] => 0
  | row :: rest => (if blankOpt row.text then 1 else 0) + skippedCount rest

/-- Number of invoked rows that produce an artifact. -/
def producedCount (cfg : Config) (svc : Nat → TTSRequest → SvcOutcome) :
    Nat → List ScriptRow → Nat
  | _, [] => 0
  | idx, row :: rest =>
    (if !blankOpt row.text &&
        isAudioOutcome (svc idx (rowRequestOf cfg row)) then 1 else 0) +
      producedCount cfg svc (idx + 1) rest

/-! ### Concrete sample inputs (used to instantiate the theorems below) -/

def wCfg : Config := ⟨"Zephyr", "", 1, "gemini-2.5-flash-preview-tts"⟩

def wRowA : ScriptRow := ⟨some "a", none, none, none⟩

def wRowB : ScriptRow := ⟨some "b", none, none, none⟩

def wBlankRow : ScriptRow := ⟨some "   ", none, none, none⟩

/-- A row whose voice override is a non-empty string outside the enumeration. -/
def wBadVoiceRow : ScriptRow := ⟨some "hi", some "NotAVoice", none, none⟩

/-- A sample buffer of exactly `2^32` bytes: `create_wave_file` on it raises
`struct.error` (the RIFF size field no longer fits 32 bits). -/
def hugePcm : List Nat := 0 :: List.replicate 4294967295 0

def hugeSvc : Nat → TTSRequest → SvcOutcome := fun _ _ => SvcOutcome.success hugePcm

/-- A service that raises on row 0 and succeeds with two bytes afterwards. -/
def failThenOkSvc : Nat → TTSRequest → SvcOutcome := fun i _ =>
  if i = 0 then SvcOutcome.failure "boom" else SvcOutcome.success [1, 2]

def emptySvc : Nat → TTSRequest → SvcOutcome := fun _ _ => SvcOutcome.empty

def okSvc : Nat → TTSRequest → SvcOutcome := fun _ _ => SvcOutcome.success [1, 2]

/-- A service whose reply is a success carrying a zero-byte sample buffer. -/
def silentSvc : Nat → TTSRequest → SvcOutcome := fun _ _ => SvcOutcome.success []

def wArtA : GeneratedArtifact := ⟨"dup.wav", "a", "Zephyr", [1]⟩

def wArtB : GeneratedArtifact := ⟨"dup.wav", "b", "Kore", [2]⟩

/-- The step produced for `wRowA` when the service reply is empty. -/
def wStepA : RowStep :=
  ⟨[Event.progress ((((0 : Nat) : ℚ) + 1) / ((1 : Nat) : ℚ)),
    Event.status ("生成中... (" ++ toString ((0 : Nat) + 1) ++ "/" ++
      toString (1 : Nat) ++ ") - " ++ resolveBase wRowA.filename 0),
    Event.sleep (3 / 2)], none⟩

/-- The run produced for the single blank row under any service. -/
def wRunBlank : BatchRun :=
  ⟨[Event.progress ((((0 : Nat) : ℚ) + 1) / (([wBlankRow].length : Nat) : ℚ)),
    Event.status ("生成中... (" ++ toString ((0 : Nat) + 1) ++ "/" ++
      toString ([wBlankRow].length : Nat) ++ ") - " ++
      resolveBase wBlankRow.filename 0),
    Event.warn ("行 " ++ toString ((0 : Nat) + 1) ++
      ": テキストが空のためスキップしました"),
    Event.progress 1, Event.status "✅ 生成完了！"], [], none⟩

/-- The artifact produced for `wBadVoiceRow` when the service returns the
two-byte sample `[1, 2]`: its voice falls back to the batch default. -/
def wArtBad : GeneratedArtifact :=
  ⟨artifactFilename wBadVoiceRow 0, textPreview (wBadVoiceRow.text.getD ""),
    resolveVoice wBadVoiceRow.voice wCfg.defaultVoice,
    create_wave_file [1, 2] 1 24000 2⟩

/-- The run produced for the single row `wBadVoiceRow` under `okSvc`. -/
def wRunBad : BatchRun :=
  ⟨[Event.progress ((((0 : Nat) : ℚ) + 1) / (([wBadVoiceRow].length : Nat) : ℚ)),
    Event.status ("生成中... (" ++ toString ((0 : Nat) + 1) ++ "/" ++
      toString ([wBadVoiceRow].length : Nat) ++ ") - " ++
      resolveBase wBadVoiceRow.filename 0),
    Event.sleep (3 / 2),
    Event.progress 1, Event.status "✅ 生成完了！"],
    [wArtBad], some [(wArtBad.filename, wArtBad.data)]⟩

end GeminiTTS

namespace GeminiTTS

/-! ### Theorems for the row-resolution claims -/

/-- C3: for every row, the resolved voice equals the row's voice override
exactly when that override is present, non-empty after trimming, and a member
of the supported voice enumeration, and equals the batch default voice
otherwise; an out-of-enumeration override is silently discarded (the resolver
is a total function with no error outcome). -/
theorem voice_resolution_matches_spec (o : Option String) (dflt : String) :
    resolveVoice o dflt = specResolveVoice o dflt := by
  cases o with
  | none => rfl
  | some v =>
    by_cases hb : pyStrip v = "" <;> by_cases hm : v ∈ VOICE_OPTIONS <;>
      simp [resolveVoice, specResolveVoice, hb, hm]

/-- C4: the composed instruction is the global instruction, a newline, then
the row instruction when both are present (global first); the present one,
verbatim, when only one is present; and empty when neither is present.  In
particular the spec's own example composes `明るく` and `はっきりと` into
`明るく\nはっきりと`. -/
theorem instruction_composition_matches_spec :
    (∀ (g : String) (o : Option String),
        combineInstruction g o = specInstruction g o) ∧
      combineInstruction "明るく" (some "はっきりと") = "明るく\nはっきりと" := by
  constructor
  · intro g o
    cases o with
    | none =>
      by_cases hg : g == ""
      · simp_all [combineInstruction, specInstruction]
      · simp_all [combineInstruction, specInstruction]
    | some ind =>
      by_cases hg : g == "" <;> by_cases hi : pyStrip ind == "" <;>
        simp_all [combineInstruction, specInstruction]
  · decide

/-- C5: the base filename is the row override when present and non-blank after
trimming, and otherwise `audio_{index+1}` zero-padded to width 3 (index 0
resolves to `audio_001`, index 11 to `audio_012`); the artifact filename is
the base name with `.wav` appended. -/
theorem filename_resolution_matches_spec :
    (∀ (o : Option String) (idx : Nat), resolveBase o idx = specBase o idx) ∧
      resolveBase none 0 = "audio_001" ∧
      resolveBase none 11 = "audio_012" ∧
      ∀ (row : ScriptRow) (idx : Nat),
        artifactFilename row idx = resolveBase row.filename idx ++ ".wav" := by
  refine ⟨?_, by decide, by decide, fun row idx => rfl⟩
  intro o idx
  cases o with
  | none => rfl
  | some s =>
    by_cases hb : pyStrip s = "" <;> simp [resolveBase, specBase, hb]

/-! ### Theorems for the WAV container claim -/

/-- Little-endian 32-bit byte decomposition round-trips below `2^32`. -/
lemma u32le_decode (n : Nat) (h : n < 4294967296) :
    n % 256 + 256 * (n / 256 % 256) + 65536 * (n / 65536 % 256) +
      16777216 * (n / 16777216 % 256) = n := by
  omega

/-- Unfolding `generate_tts` as used by `processRow`: the reply to the
resolved row request decides the returned bytes and events. -/
lemma generate_tts_eq (svc : TTSRequest → SvcOutcome) (cfg : Config)
    (row : ScriptRow) :
    generate_tts svc (row.text.getD "") (resolveVoice row.voice cfg.defaultVoice)
        (combineInstruction cfg.defaultInstruction row.instruction)
        cfg.temperature cfg.model =
      match svc (rowRequestOf cfg row) with
      | SvcOutcome.success s => (some s, [])
      | SvcOutcome.empty => (none, [])
      | SvcOutcome.failure m => (none, [Event.error ("エラー: " ++ m)]) := rfl

/-- C2: a row whose text is absent, empty, or whitespace-only after trimming
is skipped: the loop iteration emits only the progress update, the status
line, and the skip warning — no synthesis invocation (the result does not
consult the service oracle), no artifact, no sleep — and returns normally so
the batch continues with the next row. -/
theorem blank_text_rows_are_skipped (cfg : Config)
    (svc : TTSRequest → SvcOutcome) (total idx : Nat) (row : ScriptRow)
    (h : blankOpt row.text = true) :
    processRow cfg svc total idx row =
      Except.ok ⟨[Event.progress ((idx + 1 : ℚ) / (total : ℚ)),
        Event.status ("生成中... (" ++ toString (idx + 1) ++ "/" ++
          toString total ++ ") - " ++ resolveBase row.filename idx),
        Event.warn ("行 " ++ toString (idx + 1) ++
          ": テキストが空のためスキップしました")], none⟩ := by
  simp [processRow, h]

/-- C2 witness: the skip at a whitespace-only row in a three-row batch. -/
theorem blank_text_rows_are_skipped_witness :
    blankOpt wBlankRow.text = true ∧
      processRow wCfg (emptySvc 0) 3 0 wBlankRow =
        Except.ok ⟨[Event.progress ((((0 : Nat) : ℚ) + 1) / ((3 : Nat) : ℚ)),
          Event.status ("生成中... (" ++ toString ((0 : Nat) + 1) ++ "/" ++
            toString (3 : Nat) ++ ") - " ++ resolveBase wBlankRow.filename 0),
          Event.warn ("行 " ++ toString ((0 : Nat) + 1) ++
            ": テキストが空のためスキップしました")], none⟩ :=
  ⟨by decide, blank_text_rows_are_skipped wCfg (emptySvc 0) 3 0 wBlankRow (by decide)⟩

/-- C6: whenever the loop finishes an invoked (non-blank-text) row normally,
its last emitted event is the fixed 1.5 second sleep — success, empty reply
and raised fault alike — so the delay always elapses before the next row's
processing begins; it is a fixed `time.sleep(1.5)`, not adaptive. -/
theorem fixed_delay_follows_every_invocation (cfg : Config)
    (svc : TTSRequest → SvcOutcome) (total idx : Nat) (row : ScriptRow)
    (step : RowStep) (h1 : blankOpt row.text = false)
    (h2 : processRow cfg svc total idx row = Except.ok step) :
    step.events.getLast? = some (Event.sleep (3 / 2)) := by
  simp only [processRow, h1, Bool.false_eq_true, if_false, generate_tts_eq] at h2
  rcases hsvc : svc (rowRequestOf cfg row) with s | _ | m <;> rw [hsvc] at h2
  · by_cases he : s.isEmpty
    · simp only [he, if_true] at h2
      cases h2
      simp
    · simp only [he, Bool.false_eq_true, if_false] at h2
      rcases hw : create_wave_fileE s with e | wav <;> rw [hw] at h2
      · cases h2
      · cases h2
        simp
  · cases h2
    simp
  · cases h2
    simp

/-- C6 witness: the delay at a concrete invoked row with an empty reply. -/
theorem fixed_delay_follows_every_invocation_witness :
    blankOpt wRowA.text = false ∧
      processRow wCfg (emptySvc 0) 1 0 wRowA = Except.ok wStepA ∧
      wStepA.events.getLast? = some (Event.sleep (3 / 2)) :=
  ⟨by decide, rfl,
    fixed_delay_follows_every_invocation wCfg (emptySvc 0) 1 0 wRowA wStepA
      (by decide) rfl⟩

/-! ### Characterization of one loop iteration and of the whole loop -/

lemma countProgress_append (a b : List Event) :
    countProgress (a ++ b) = countProgress a + countProgress b :=
  List.countP_append _ _ _

lemma countWarn_append (a b : List Event) :
    countWarn (a ++ b) = countWarn a + countWarn b :=
  List.countP_append _ _ _

/-- What a normally-returning loop iteration guarantees: exactly one progress
update; a warning exactly for the blank-text skip; an artifact exactly when
the service reply for the row's request carries non-empty audio; and any
artifact records the validated voice. -/
lemma processRow_ok_spec (cfg : Config) (svc : TTSRequest → SvcOutcome)
    (total idx : Nat) (row : ScriptRow) (step : RowStep)
    (h : processRow cfg svc total idx row = Except.ok step) :
    countProgress step.events = 1 ∧
      countWarn step.events = (if blankOpt row.text then 1 else 0) ∧
      step.artifact.toList.length =
        (if !blankOpt row.text && isAudioOutcome (svc (rowRequestOf cfg row))
          then 1 else 0) ∧
      ∀ a, step.artifact = some a →
        a.voice = resolveVoice row.voice cfg.defaultVoice := by
  by_cases hb : blankOpt row.text
  · simp only [processRow, hb, if_true] at h
    cases h
    refine ⟨?_, ?_, ?_, ?_⟩
    · simp [countProgress, List.countP_cons, List.countP_nil, isProgress]
    · simp [countWarn, List.countP_cons, List.countP_nil, isWarn, hb]
    · simp [hb]
    · intro a ha
      cases ha
  · simp only [processRow, hb, Bool.false_eq_true, if_false, generate_tts_eq] at h
    rcases hsvc : svc (rowRequestOf cfg row) with s | _ | m <;> rw [hsvc] at h
    · by_cases he : s.isEmpty
      · simp only [he, if_true] at h
        cases h
        refine ⟨?_, ?_, ?_, ?_⟩
        · simp [countProgress, List.countP_cons, List.countP_nil, isProgress]
        · simp [countWarn, List.countP_cons, List.countP_nil, isWarn, hb]
        · simp [hb, hsvc, isAudioOutcome, he]
        · intro a ha
          cases ha
      · simp only [he, Bool.false_eq_true, if_false] at h
        rcases hw : create_wave_fileE s with e | wav <;> rw [hw] at h
        · cases h
        · cases h
          refine ⟨?_, ?_, ?_, ?_⟩
          · simp [countProgress, List.countP_cons, List.countP_nil, isProgress]
          · simp [countWarn, List.countP_cons, List.countP_nil, isWarn, hb]
          · simp [hb, hsvc, isAudioOutcome, he]
          · intro a ha
            cases ha
            rfl
    · cases h
      refine ⟨?_, ?_, ?_, ?_⟩
      · simp [countProgress, List.countP_cons, List.countP_nil, isProgress]
      · simp [countWarn, List.countP_cons, List.countP_nil, isWarn, hb]
      · simp [hb, hsvc, isAudioOutcome]
      · intro a ha
        cases ha
    · cases h
      refine ⟨?_, ?_, ?_, ?_⟩
      · simp [countProgress, List.countP_cons, List.countP_nil, isProgress, isWarn]
      · simp [countWarn, List.countP_cons, List.countP_nil, isWarn, isProgress, hb]
      · simp [hb, hsvc, isAudioOutcome]
      · intro a ha
        cases ha

/-- A normally-returning loop iteration never aborts as long as every
successful reply fits the 32-bit RIFF size field. -/
lemma processRow_no_abort (cfg : Config) (svc : TTSRequest → SvcOutcome)
    (total idx : Nat) (row : ScriptRow)
    (h : ∀ s, svc (rowRequestOf cfg row) = SvcOutcome.success s →
      36 + s.length ≤ 4294967295) :
    ∃ step, processRow cfg svc total idx row = Except.ok step := by
  by_cases hb : blankOpt row.text
  · exact ⟨_, by simp only [processRow, hb, if_true]; rfl⟩
  · simp only [processRow, hb, Bool.false_eq_true, if_false, generate_tts_eq]
    rcases hsvc : svc (rowRequestOf cfg row) with s | _ | m
    · by_cases he : s.isEmpty
      · exact ⟨_, by simp [he]; try rfl⟩
      · have hw : create_wave_fileE s =
            Except.ok (create_wave_file s 1 24000 2) := by
          have := h s hsvc
          simp only [create_wave_fileE, if_neg (by omega : ¬36 + s.length > 4294967295)]
        exact ⟨_, by simp [he, hw]; try rfl⟩
    · exact ⟨_, rfl⟩
    · exact ⟨_, rfl⟩

/-- The loop over a row list returns normally under the same size condition. -/
lemma runRows_no_abort (cfg : Config) (svc : Nat → TTSRequest → SvcOutcome)
    (total : Nat)
    (h : ∀ i req s, svc i req = SvcOutcome.success s →
      36 + s.length ≤ 4294967295) :
    ∀ (rows : List ScriptRow) (idx : Nat),
      ∃ p, runRows cfg svc total idx rows = Except.ok p := by
  intro rows
  induction rows with
  | nil => exact fun idx => ⟨([], []), rfl⟩
  | cons row rest ih =>
    intro idx
    obtain ⟨step, hstep⟩ :=
      processRow_no_abort cfg (svc idx) total idx row
        (fun s => h idx (rowRequestOf cfg row) s)
    obtain ⟨⟨evs, arts⟩, hrest⟩ := ih (idx + 1)
    exact ⟨_, by simp only [runRows, hstep, hrest]; rfl⟩

/-- A member of an optional value's list view is that value. -/
lemma mem_toList_eq {A : Type} (o : Option A) (a : A) (h : a ∈ o.toList) :
    o = some a := by
  cases o with
  | none => cases h
  | some b =>
    simp only [Option.toList, List.mem_singleton] at h
    rw [h]

/-- What a normally-returning loop guarantees, cumulatively. -/
lemma runRows_ok_spec (cfg : Config) (svc : Nat → TTSRequest → SvcOutcome)
    (total : Nat) :
    ∀ (rows : List ScriptRow) (idx : Nat) (evs : List Event)
      (arts : List GeneratedArtifact),
      runRows cfg svc total idx rows = Except.ok (evs, arts) →
      countProgress evs = rows.length ∧
        countWarn evs = skippedCount rows ∧
        arts.length = producedCount cfg svc idx rows ∧
        ∀ a ∈ arts, ∃ row ∈ rows,
          a.voice = resolveVoice row.voice cfg.defaultVoice := by
  intro rows
  induction rows with
  | nil =>
    intro idx evs arts h
    simp only [runRows, Except.ok.injEq, Prod.mk.injEq] at h
    obtain ⟨h1, h2⟩ := h
    subst h1
    subst h2
    simp [countProgress, countWarn, skippedCount, producedCount]
  | cons row rest ih =>
    intro idx evs arts h
    simp only [runRows] at h
    rcases hstep : processRow cfg (svc idx) total idx row with e | step <;>
      rw [hstep] at h
    · cases h
    · rcases hrest : runRows cfg svc total (idx + 1) rest with e | p <;>
        rw [hrest] at h
      · cases h
      · obtain ⟨evs', arts'⟩ := p
        cases h
        obtain ⟨p1, w1, a1, v1⟩ := processRow_ok_spec cfg (svc idx) total idx row step hstep
        obtain ⟨p2, w2, a2, v2⟩ := ih (idx + 1) evs' arts' hrest
        refine ⟨?_, ?_, ?_, ?_⟩
        · rw [countProgress_append, p1, p2]
          simp [Nat.add_comm]
        · rw [countWarn_append, w1, w2]
          simp [skippedCount]
        · rw [List.length_append, a1, a2]
          simp [producedCount]
        · intro a ha
          rcases List.mem_append.1 ha with hmem | hmem
          · have hsome := mem_toList_eq step.artifact a hmem
            exact ⟨row, List.mem_cons_self row rest, v1 a hsome⟩
          · obtain ⟨r', hr', hv⟩ := v2 a hmem
            exact ⟨r', List.mem_cons_of_mem _ hr', hv⟩

/-- The validated voice is always drawn from the enumeration, provided the
default is. -/
lemma resolveVoice_contains (o : Option String) (dflt : String)
    (h : VOICE_OPTIONS.contains dflt = true) :
    VOICE_OPTIONS.contains (resolveVoice o dflt) = true := by
  have hd : dflt ∈ VOICE_OPTIONS := by simpa using h
  cases o with
  | none => exact h
  | some v =>
    by_cases hb : pyStrip v = "" <;> by_cases hm : v ∈ VOICE_OPTIONS <;>
      simp [resolveVoice, hb, hm, hd]

/-- One loop iteration propagates the `struct.error` fault raised while
building the WAV file for an oversized successful reply. -/
lemma processRow_container_fault (cfg : Config) (svc : TTSRequest → SvcOutcome)
    (total idx : Nat) (row : ScriptRow) (pcm : List Nat)
    (hb : blankOpt row.text = false)
    (hsvc : svc (rowRequestOf cfg row) = SvcOutcome.success pcm)
    (hne : pcm.isEmpty = false)
    (hbig : 36 + pcm.length > 4294967295) :
    processRow cfg svc total idx row =
      Except.error "struct.error: argument out of range" := by
  simp only [processRow, hb, Bool.false_eq_true, if_false, generate_tts_eq,
    hsvc, hne, create_wave_fileE]
  rw [if_pos hbig]

lemma runRows_error_head (cfg : Config) (svc : Nat → TTSRequest → SvcOutcome)
    (total idx : Nat) (row : ScriptRow) (rest : List ScriptRow) (e : String)
    (h : processRow cfg (svc idx) total idx row = Except.error e) :
    runRows cfg svc total idx (row :: rest) = Except.error e := by
  simp only [runRows, h]

lemma run_batch_error (cfg : Config) (svc : Nat → TTSRequest → SvcOutcome)
    (rows : List ScriptRow) (e : String)
    (h : runRows cfg svc rows.length 0 rows = Except.error e) :
    run_batch cfg svc rows = Except.error e := by
  simp only [run_batch, h]

/-- C1 counterexample: a container-format fault during audio-file building is
NOT contained at the row level.  `create_wave_file` is invoked outside any
exception handler, so its one fault mode — a sample buffer whose size
overflows the 32-bit RIFF length field, raising `struct.error` — aborts the
entire batch: on a two-row batch whose first reported synthesis succeeds with
a `2^32`-byte buffer, the run ends in the propagated error, the second row is
never processed, and no result is stored at all. -/
theorem container_fault_aborts_batch :
    run_batch wCfg hugeSvc [wRowA, wRowB] =
      Except.error "struct.error: argument out of range" := by
  have hblank : blankOpt wRowA.text = false := by decide
  have hlen : hugePcm.length = 4294967296 := by
    show (0 :: List.replicate 4294967295 (0 : Nat)).length = 4294967296
    rw [List.length_cons, List.length_replicate]
  have h1 : processRow wCfg (hugeSvc 0) 2 0 wRowA =
      Except.error "struct.error: argument out of range" :=
    processRow_container_fault wCfg (hugeSvc 0) 2 0 wRowA hugePcm hblank rfl rfl
      (by rw [hlen]; norm_num)
  exact run_batch_error wCfg hugeSvc [wRowA, wRowB] _
    (runRows_error_head wCfg hugeSvc 2 0 wRowA [wRowB] _ h1)

/-- One loop iteration on a row whose service call raises: the exception is
caught inside `generate_tts`, an error box is shown, no artifact is built,
the sleep still runs, and the iteration returns normally. -/
lemma processRow_failure_eq (cfg : Config) (svc : TTSRequest → SvcOutcome)
    (total idx : Nat) (row : ScriptRow) (m : String)
    (hb : blankOpt row.text = false)
    (hsvc : svc (rowRequestOf cfg row) = SvcOutcome.failure m) :
    processRow cfg svc total idx row =
      Except.ok ⟨[Event.progress ((idx + 1 : ℚ) / (total : ℚ)),
        Event.status ("生成中... (" ++ toString (idx + 1) ++ "/" ++
          toString total ++ ") - " ++ resolveBase row.filename idx),
        Event.error ("エラー: " ++ m), Event.sleep (3 / 2)], none⟩ := by
  simp [processRow, hb, generate_tts_eq, hsvc]

/-- C1 (amended): a synthesis-service fault (raised exception) during a row's
processing is contained at the row level — the row is recorded as failed (an
error box carrying the exception message is shown and the row produces no
artifact) while the iteration returns normally, so every remaining row is
still processed and the batch never aborts due to it: whenever no
container-format fault can arise (every successful reply fits the
container's 32-bit size field, `36 + length ≤ 2^32 - 1`), the whole batch
completes with a progress update for every row plus the final one.  A
container-format fault while building a row's audio file after a successful
synthesis is NOT contained: the `struct.error` raised for an oversized
buffer propagates out of the iteration instead of yielding a row result,
aborting the whole batch. -/
theorem service_faults_contained_at_row_level :
    (∀ (cfg : Config) (svc : TTSRequest → SvcOutcome) (total idx : Nat)
        (row : ScriptRow) (m : String),
        blankOpt row.text = false →
        svc (rowRequestOf cfg row) = SvcOutcome.failure m →
        processRow cfg svc total idx row =
          Except.ok ⟨[Event.progress ((idx + 1 : ℚ) / (total : ℚ)),
            Event.status ("生成中... (" ++ toString (idx + 1) ++ "/" ++
              toString total ++ ") - " ++ resolveBase row.filename idx),
            Event.error ("エラー: " ++ m), Event.sleep (3 / 2)], none⟩) ∧
      (∀ (cfg : Config) (svc : Nat → TTSRequest → SvcOutcome)
          (rows : List ScriptRow),
          (∀ i req s, svc i req = SvcOutcome.success s →
            36 + s.length ≤ 4294967295) →
          ∃ r, run_batch cfg svc rows = Except.ok r ∧
            countProgress r.events = rows.length + 1) ∧
      ∀ (cfg : Config) (svc : TTSRequest → SvcOutcome) (total idx : Nat)
        (row : ScriptRow) (pcm : List Nat),
        blankOpt row.text = false →
        svc (rowRequestOf cfg row) = SvcOutcome.success pcm →
        pcm.isEmpty = false → 36 + pcm.length > 4294967295 →
        processRow cfg svc total idx row =
          Except.error "struct.error: argument out of range" := by
  refine ⟨?_, ?_, ?_⟩
  · exact fun cfg svc total idx row m hb hsvc =>
      processRow_failure_eq cfg svc total idx row m hb hsvc
  · intro cfg svc rows h
    obtain ⟨⟨evs, arts⟩, hp⟩ := runRows_no_abort cfg svc rows.length h rows 0
    obtain ⟨p1, -, -, -⟩ := runRows_ok_spec cfg svc rows.length rows 0 evs arts hp
    refine ⟨⟨evs ++ [Event.progress 1, Event.status "✅ 生成完了！"], arts,
      assembleArchive arts⟩, ?_, ?_⟩
    · simp only [run_batch, hp]
    · rw [countProgress_append, p1]
      simp [countProgress, List.countP_cons, isProgress]
  · exact fun cfg svc total idx row pcm hb hsvc hne hbig =>
      processRow_container_fault cfg svc total idx row pcm hb hsvc hne hbig

/-- C1 witness: a service raising `boom` on row 0 and succeeding with two
bytes on row 1.  Row 0 is recorded as failed (error box, no artifact) and
returns normally; the two-row batch completes with all three progress
updates; and the oversized-buffer iteration from the counterexample input
propagates the `struct.error` instead. -/
theorem service_faults_contained_at_row_level_witness :
    (blankOpt wRowA.text = false ∧
      failThenOkSvc 0 (rowRequestOf wCfg wRowA) = SvcOutcome.failure "boom" ∧
      processRow wCfg (failThenOkSvc 0) 2 0 wRowA =
        Except.ok ⟨[Event.progress ((((0 : Nat) : ℚ) + 1) / ((2 : Nat) : ℚ)),
          Event.status ("生成中... (" ++ toString ((0 : Nat) + 1) ++ "/" ++
            toString (2 : Nat) ++ ") - " ++ resolveBase wRowA.filename 0),
          Event.error ("エラー: " ++ "boom"), Event.sleep (3 / 2)], none⟩) ∧
      ((∀ i req s, failThenOkSvc i req = SvcOutcome.success s →
          36 + s.length ≤ 4294967295) ∧
        ∃ r, run_batch wCfg failThenOkSvc [wRowA, wRowB] = Except.ok r ∧
          countProgress r.events = [wRowA, wRowB].length + 1) ∧
      (blankOpt wRowA.text = false ∧
        hugeSvc 0 (rowRequestOf wCfg wRowA) = SvcOutcome.success hugePcm ∧
        hugePcm.isEmpty = false ∧ 36 + hugePcm.length > 4294967295 ∧
        processRow wCfg (hugeSvc 0) 2 0 wRowA =
          Except.error "struct.error: argument out of range") := by
  have hsmall : ∀ i req s, failThenOkSvc i req = SvcOutcome.success s →
      36 + s.length ≤ 4294967295 := by
    intro i req s hs
    simp only [failThenOkSvc] at hs
    by_cases hi : i = 0
    · rw [if_pos hi] at hs
      cases hs
    · rw [if_neg hi] at hs
      cases hs
      decide
  have hlen : hugePcm.length = 4294967296 := by
    show (0 :: List.replicate 4294967295 (0 : Nat)).length = 4294967296
    rw [List.length_cons, List.length_replicate]
  have hbig : 36 + hugePcm.length > 4294967295 := by
    rw [hlen]
    norm_num
  refine ⟨⟨by decide, rfl,
      service_faults_contained_at_row_level.1 wCfg (failThenOkSvc 0) 2 0 wRowA
        "boom" (by decide) rfl⟩,
    ⟨hsmall,
      service_faults_contained_at_row_level.2.1 wCfg failThenOkSvc
        [wRowA, wRowB] hsmall⟩,
    ⟨by decide, rfl, rfl, hbig,
      service_faults_contained_at_row_level.2.2 wCfg (hugeSvc 0) 2 0 wRowA
        hugePcm (by decide) rfl rfl hbig⟩⟩

/-- C9 counterexample: the batch output includes no `failed` count.  Over the
same single-row input, a service whose reply is empty (row 0's invocation
ends in an empty result, so the claimed `failed` would be 1) and a service
whose reply succeeds with a zero-byte buffer (neither empty result nor
failure, so the claimed `failed` would be 0) produce IDENTICAL batch output —
same events, same artifacts, same archive.  No component of the returned
result can therefore be a count that increments by exactly 1 for every
empty-result row: an empty reply leaves no record beyond a console log. -/
theorem no_failed_count_in_batch_output :
    isFailureOutcome (emptySvc 0 (rowRequestOf wCfg wRowA)) = true ∧
      isFailureOutcome (silentSvc 0 (rowRequestOf wCfg wRowA)) = false ∧
      run_batch wCfg emptySvc [wRowA] = run_batch wCfg silentSvc [wRowA] :=
  ⟨rfl, rfl, rfl⟩

/-- C9 (amended): the batch run reports `skipped` through its per-row
records: exactly one warning is displayed per row skipped for empty text, so
the number of warnings among the run's displayed events equals the number of
blank-text rows, incrementing by exactly 1 per skipped row.  The run
maintains and returns no `failed` count — an empty reply leaves no record in
the stored result or displayed events — but a raised service fault is
recorded per-row: the faulting row shows an error box carrying the message
and contributes no artifact. -/
theorem batch_skip_reporting :
    (∀ (cfg : Config) (svc : Nat → TTSRequest → SvcOutcome)
        (rows : List ScriptRow) (r : BatchRun),
        run_batch cfg svc rows = Except.ok r →
        countWarn r.events = skippedCount rows) ∧
      ∀ (cfg : Config) (svc : TTSRequest → SvcOutcome) (total idx : Nat)
        (row : ScriptRow) (m : String),
        blankOpt row.text = false →
        svc (rowRequestOf cfg row) = SvcOutcome.failure m →
        ∃ step, processRow cfg svc total idx row = Except.ok step ∧
          Event.error ("エラー: " ++ m) ∈ step.events ∧ step.artifact = none := by
  constructor
  · intro cfg svc rows r h
    rcases hrr : runRows cfg svc rows.length 0 rows with e | p
    · simp only [run_batch] at h
      rw [hrr] at h
      cases h
    · obtain ⟨evs, arts⟩ := p
      simp only [run_batch] at h
      rw [hrr] at h
      cases h
      obtain ⟨-, w, -, -⟩ := runRows_ok_spec cfg svc rows.length rows 0 evs arts hrr
      rw [countWarn_append, w]
      simp [countWarn, List.countP_cons, isWarn]
  · intro cfg svc total idx row m hb hsvc
    exact ⟨_, processRow_failure_eq cfg svc total idx row m hb hsvc, by simp, rfl⟩

/-- C9 witness: the blank one-row batch shows exactly its one skip warning,
and a raised fault on an invoked row is recorded by an error box with no
artifact. -/
theorem batch_skip_reporting_witness :
    (run_batch wCfg emptySvc [wBlankRow] = Except.ok wRunBlank ∧
      countWarn wRunBlank.events = skippedCount [wBlankRow]) ∧
      (blankOpt wRowB.text = false ∧
        failThenOkSvc 0 (rowRequestOf wCfg wRowB) = SvcOutcome.failure "boom" ∧
        ∃ step, processRow wCfg (failThenOkSvc 0) 1 0 wRowB = Except.ok step ∧
          Event.error ("エラー: " ++ "boom") ∈ step.events ∧
          step.artifact = none) :=
  ⟨⟨rfl, batch_skip_reporting.1 wCfg emptySvc [wBlankRow] wRunBlank rfl⟩,
    ⟨by decide, rfl,
      batch_skip_reporting.2 wCfg (failThenOkSvc 0) 1 0 wRowB "boom"
        (by decide) rfl⟩⟩

/-- C10: every generated artifact recorded voice is a member of the voice
enumeration whenever the batch default voice is — in particular for rows
whose override is a non-empty string outside the enumeration, because the
stored voice is the validated `voice_name`, not the raw override. -/
theorem artifact_voice_in_enumeration (cfg : Config)
    (svc : Nat → TTSRequest → SvcOutcome) (rows : List ScriptRow)
    (r : BatchRun) (h0 : VOICE_OPTIONS.contains cfg.defaultVoice = true)
    (h : run_batch cfg svc rows = Except.ok r) :
    ∀ a ∈ r.artifacts, VOICE_OPTIONS.contains a.voice = true := by
  rcases hrr : runRows cfg svc rows.length 0 rows with e | p
  · simp only [run_batch] at h
    rw [hrr] at h
    cases h
  · obtain ⟨evs, arts⟩ := p
    simp only [run_batch] at h
    rw [hrr] at h
    cases h
    intro a ha
    obtain ⟨-, -, -, hv⟩ := runRows_ok_spec cfg svc rows.length rows 0 evs arts hrr
    obtain ⟨row, -, hveq⟩ := hv a ha
    rw [hveq]
    exact resolveVoice_contains row.voice cfg.defaultVoice h0

/-- C10 witness: the row with override `NotAVoice` stores the validated
default voice `Zephyr`, a member of the enumeration. -/
theorem artifact_voice_in_enumeration_witness :
    VOICE_OPTIONS.contains wCfg.defaultVoice = true ∧
      run_batch wCfg okSvc [wBadVoiceRow] = Except.ok wRunBad ∧
      VOICE_OPTIONS.contains wArtBad.voice = true := by
  have h : run_batch wCfg okSvc [wBadVoiceRow] = Except.ok wRunBad := rfl
  exact ⟨by decide, h,
    artifact_voice_in_enumeration wCfg okSvc [wBadVoiceRow] wRunBad (by decide) h
      wArtBad (by simp [wRunBad])⟩

/-- The entry list of the assembled archive keeps filter in step with map. -/
lemma filter_map_comm (fs : List GeneratedArtifact) (nm : String) :
    ((fs.map fun f => (f.filename, f.data)).filter fun e => e.fst == nm) =
      ((fs.filter fun f => f.filename == nm).map fun f => (f.filename, f.data)) := by
  induction fs with
  | nil => rfl
  | cons f fs ih =>
    by_cases hf : f.filename == nm
    · simp [List.filter_cons, hf, ih]
    · simp [List.filter_cons, hf, ih]

/-- Taking `getLast?` commutes with the artifact-to-entry map. -/
lemma getLast?_map_data (l : List GeneratedArtifact) :
    ((l.map fun f => (f.filename, f.data)).getLast?).map Prod.snd =
      l.getLast?.map GeneratedArtifact.data := by
  induction l with
  | nil => rfl
  | cons f l ih =>
    cases l with
    | nil => rfl
    | cons b lr =>
      simp only [List.map_cons, List.getLast?_cons_cons]
      simpa [List.map_cons] using ih

/-- C8: assembling the archive from no artifacts yields no archive; from a
non-empty artifact sequence it yields one entry per artifact, in order, named
by the artifact filename and carrying its bytes (a single artifact gives
exactly one entry); and reading a name from the assembled entries resolves to
the LAST artifact carrying that filename — a later duplicate silently
overwrites the earlier entry. -/
theorem archive_assembly_matches_spec :
    (assembleArchive [] = none) ∧
      (∀ a : GeneratedArtifact,
        assembleArchive [a] = some [(a.filename, a.data)]) ∧
      (∀ fs : List GeneratedArtifact, fs ≠ [] →
        assembleArchive fs = some (fs.map fun f => (f.filename, f.data))) ∧
      (∀ (fs : List GeneratedArtifact) (nm : String),
        zipRead (fs.map fun f => (f.filename, f.data)) nm =
          ((fs.filter fun f => f.filename == nm).getLast?).map
            GeneratedArtifact.data) := by
  refine ⟨rfl, fun a => rfl, ?_, ?_⟩
  · intro fs hfs
    cases fs with
    | nil => exact absurd rfl hfs
    | cons f fs => rfl
  · intro fs nm
    simp only [zipRead, filter_map_comm, getLast?_map_data]

/-- C8 witness: two artifacts sharing the filename `dup.wav` — the archive
holds both entries in order and reading the name yields the later bytes. -/
theorem archive_assembly_matches_spec_witness :
    (([wArtA, wArtB] : List GeneratedArtifact) ≠ []) ∧
      assembleArchive [wArtA, wArtB] =
        some ([wArtA, wArtB].map fun f => (f.filename, f.data)) ∧
      zipRead ([wArtA, wArtB].map fun f => (f.filename, f.data)) "dup.wav" =
        (([wArtA, wArtB].filter fun f => f.filename == "dup.wav").getLast?).map
          GeneratedArtifact.data ∧
      zipRead ([wArtA, wArtB].map fun f => (f.filename, f.data)) "dup.wav" =
        some wArtB.data :=
  ⟨by decide, archive_assembly_matches_spec.2.2.1 [wArtA, wArtB] (by decide),
    archive_assembly_matches_spec.2.2.2 [wArtA, wArtB] "dup.wav", by decide⟩

end GeminiTTS
